import Mathlib

/-!
# Verification of the loan-processor pipeline (`src/app.py`)

Shallow embedding of the document-to-decision pipeline of the loan
processor application. Python dictionaries coming out of document
extraction are modelled as structures with `Option` fields (`none` =
key absent); Python floats are modelled as exact rationals (all the
arithmetic relevant here — `* 0.02`, `* 0.7`, division — is exact at
the inputs considered); Python exceptions are modelled as
`Except String`; the external services (document AI, reasoning model,
MongoDB) are modelled as explicit outcome parameters, so every
function is a pure, executable transform of its inputs and of the
observed behaviour of its collaborators.
-/

set_option autoImplicit false

namespace LoanProcessor

/-- A calendar instant as used by `datetime.now()` in
`combine_extracted_data`: only the year and month enter the
employment-duration formula (`app.py` line 194). -/
structure Date where
  year : Nat
  month : Nat
deriving DecidableEq

/-- Identity-document record (`app.py` `SCHEMAS["identity"]`), restricted
to the fields `combine_extracted_data` reads. `none` models an absent
dictionary key (the `.get` default is then used). -/
structure IdentityData where
  full_name : Option String
  date_of_birth : Option String
  document_number : Option String
  address : Option String
deriving DecidableEq

/-- Income-document record (`app.py` `SCHEMAS["income"]`), restricted to
the fields `combine_extracted_data` reads. -/
structure IncomeData where
  applicant_name : Option String
  employer_name : Option String
  job_title : Option String
  monthly_gross_income : Option ℚ
  monthly_net_income : Option ℚ
  employment_start_date : Option String
  contract_type : Option String
deriving DecidableEq

/-- Bank-statement record (`app.py` `SCHEMAS["bank_statement"]`),
restricted to the fields `combine_extracted_data` reads. -/
structure BankData where
  average_balance : Option ℚ
  total_expenses : Option ℚ
  recurring_loan_payments : Option ℚ
  overdraft_occurrences : Option Int
deriving DecidableEq

/-- The combined applicant profile built by `combine_extracted_data`
(`app.py` lines 199-227). Fields that the function always writes are
plain values; the three bank-only fields that can be set to `None`
(`null`) are `Option`s. -/
structure ApplicantProfile where
  full_name : String
  date_of_birth : String
  document_number : String
  address : String
  employer_name : String
  job_title : String
  monthly_gross_income : ℚ
  monthly_net_income : ℚ
  employment_start_date : String
  employment_months : Int
  contract_type : String
  average_balance : Option ℚ
  total_expenses : Option ℚ
  recurring_loan_payments : ℚ
  overdraft_occurrences : Option Int
deriving DecidableEq

/-- One risk flag of a `RiskAssessment` (`app.py` lines 287-289 and the
fallback dictionaries at lines 348 and 360). -/
structure RiskFlag where
  flag_type : String
  message : String
  severity : String
deriving DecidableEq

/-- One policy-compliance entry of a `RiskAssessment`
(`app.py` lines 291-295). -/
structure PolicyCheck where
  required : ℚ
  actual : ℚ
  compliant : Bool
deriving DecidableEq

/-- The risk-assessment dictionary shape requested from the reasoning
model and produced by the fallback paths of `analyze_risk`
(`app.py` lines 280-296, 342-351, 354-363). `policy_compliance` is an
association list; the fallbacks use the empty one (`{}`). -/
structure RiskAssessment where
  risk_score : ℚ
  risk_level : String
  debt_to_income_ratio : ℚ
  recommendation : String
  explanation : String
  flags : List RiskFlag
  suggested_actions : List String
  policy_compliance : List (String × PolicyCheck)
deriving DecidableEq

/-! ## Date parsing (`datetime.strptime(s, "%Y-%m-%d")`)

CPython's `_strptime` matches `%Y` against exactly four digits, `%m`
against `1[0-2]|0[1-9]|[1-9]` and `%d` against `3[01]|[12]\d|0[1-9]|[1-9]`,
requires the whole string to be consumed, and then `datetime(year, month,
day)` validates `1 <= year` and that the day exists in the given month
(with leap years). The parser below reproduces exactly that acceptance
condition for the fixed format `"%Y-%m-%d"`. -/

/-- Split a character list at every `'-'` (the literal separators of the
`"%Y-%m-%d"` format). -/
def splitDash : List Char → List (List Char)
  | [] => [[]]
  | c :: rest =>
    let r := splitDash rest
    if c = '-' then [] :: r
    else
      match r with
      | [] => [[c]]
      | g :: gs => (c :: g) :: gs

/-- Numeric value of a list of decimal digit characters. -/
def digitsVal (cs : List Char) : Nat :=
  cs.foldl (fun n c => n * 10 + (c.toNat - 48)) 0

/-- All characters are ASCII decimal digits. -/
def allDigits (cs : List Char) : Bool :=
  cs.all fun c => c.isDigit

/-- `True` on leap years, as `datetime` computes them. -/
def leapYear (y : Nat) : Bool :=
  y % 4 = 0 && (y % 100 ≠ 0 || y % 400 = 0)

/-- Number of days of month `m` of year `y`, as `datetime` validates. -/
def daysInMonth (y m : Nat) : Nat :=
  if m = 2 then (if leapYear y then 29 else 28)
  else if m = 4 ∨ m = 6 ∨ m = 9 ∨ m = 11 then 30
  else 31

/-- `datetime.strptime(s, "%Y-%m-%d")` as a total function: `some
(year, month, day)` on success, `none` when `strptime` (or the
`datetime` constructor it calls) raises `ValueError`. -/
def parseDate (s : String) : Option (Nat × Nat × Nat) :=
  match splitDash s.toList with
  | [ys, ms, ds] =>
    if ys.length = 4 ∧ allDigits ys = true ∧
       0 < ms.length ∧ ms.length ≤ 2 ∧ allDigits ms = true ∧
       0 < ds.length ∧ ds.length ≤ 2 ∧ allDigits ds = true ∧
       1 ≤ digitsVal ys ∧
       1 ≤ digitsVal ms ∧ digitsVal ms ≤ 12 ∧
       1 ≤ digitsVal ds ∧ digitsVal ds ≤ daysInMonth (digitsVal ys) (digitsVal ms)
    then some (digitsVal ys, digitsVal ms, digitsVal ds)
    else none
  | _ => none

/-- Employment duration in whole months (`app.py` lines 188-196):
`0` for the empty string (the `.get` default, falsy in Python), the
formula `(today.year - start.year) * 12 + (today.month - start.month)`
when the date parses, and `0` when `strptime` raises (the bare
`except` at line 195). The result is an `Int`: the formula is negative
for a start date in a future month. -/
def employment_months (today : Date) (employment_start : String) : Int :=
  if employment_start = "" then 0
  else
    match parseDate employment_start with
    | some (y, m, _) =>
      ((today.year : Int) - (y : Int)) * 12 + ((today.month : Int) - (m : Int))
    | none => 0

/-- `combine_extracted_data(identity_data, income_data, bank_data)`
(`app.py` lines 172-229), with `datetime.now()` passed in as `today`.
Mirrors the source line by line: name preference chain (line 185),
employment duration (lines 188-196), `.get` defaults (lines 199-211),
and the bank-field asymmetry (lines 214-227). -/
def combine_extracted_data (today : Date) (identity_data : IdentityData)
    (income_data : IncomeData) (bank_data : Option BankData) : ApplicantProfile :=
  let full_name := identity_data.full_name.getD (income_data.applicant_name.getD "Unknown")
  let employment_start := income_data.employment_start_date.getD ""
  let months := employment_months today employment_start
  match bank_data with
  | some bank =>
    { full_name := full_name
      date_of_birth := identity_data.date_of_birth.getD ""
      document_number := identity_data.document_number.getD ""
      address := identity_data.address.getD ""
      employer_name := income_data.employer_name.getD ""
      job_title := income_data.job_title.getD ""
      monthly_gross_income := income_data.monthly_gross_income.getD 0
      monthly_net_income :=
        income_data.monthly_net_income.getD
          ((income_data.monthly_gross_income.getD 0) * (7 / 10))
      employment_start_date := employment_start
      employment_months := months
      contract_type := income_data.contract_type.getD "unknown"
      average_balance := some (bank.average_balance.getD 0)
      total_expenses := some (bank.total_expenses.getD 0)
      recurring_loan_payments := bank.recurring_loan_payments.getD 0
      overdraft_occurrences := some (bank.overdraft_occurrences.getD 0) }
  | none =>
    { full_name := full_name
      date_of_birth := identity_data.date_of_birth.getD ""
      document_number := identity_data.document_number.getD ""
      address := identity_data.address.getD ""
      employer_name := income_data.employer_name.getD ""
      job_title := income_data.job_title.getD ""
      monthly_gross_income := income_data.monthly_gross_income.getD 0
      monthly_net_income :=
        income_data.monthly_net_income.getD
          ((income_data.monthly_gross_income.getD 0) * (7 / 10))
      employment_start_date := employment_start
      employment_months := months
      contract_type := income_data.contract_type.getD "unknown"
      average_balance := none
      total_expenses := none
      recurring_loan_payments := 0
      overdraft_occurrences := none }

/-! ## Risk engine (`analyze_risk`, `app.py` lines 232-363) -/

/-- `estimated_monthly_payment = loan_amount * 0.02` (`app.py` line 247);
`2 / 100` is the exact value of the literal `0.02`. -/
def estimated_monthly_payment (loan_amount : ℚ) : ℚ :=
  loan_amount * (2 / 100)

/-- `total_debt = existing_loan_payments + estimated_monthly_payment`
(`app.py` line 248); `combined_data.get("recurring_loan_payments", 0)`
is the profile field, which `combine_extracted_data` always sets. -/
def total_debt (combined_data : ApplicantProfile) (loan_amount : ℚ) : ℚ :=
  combined_data.recurring_loan_payments + estimated_monthly_payment loan_amount

/-- `dti_ratio = total_debt / monthly_income if monthly_income > 0 else 1.0`
(`app.py` line 249). -/
def dti_ratio (combined_data : ApplicantProfile) (loan_amount : ℚ) : ℚ :=
  if 0 < combined_data.monthly_gross_income then
    total_debt combined_data loan_amount / combined_data.monthly_gross_income
  else 1

/-- Observable outcome of the reasoning-model interaction in
`analyze_risk` (`app.py` lines 315-338), abstracting the HTTP layer:

* `requestError msg`: `requests.post`, `raise_for_status()` or
  `response.json()` raised `requests.exceptions.RequestException`
  (this class also covers a non-JSON HTTP body, since
  `requests.exceptions.JSONDecodeError` derives from it);
* `noChoices`: the call succeeded but the body carried no non-empty
  `"choices"` list, so line 338 raises
  `ValueError("No response from Ministral-3B")`;
* `contentMalformed msg`: `json.loads` on the (fence-stripped) message
  content raised `json.JSONDecodeError` with text `msg`;
* `contentParsed a`: `json.loads` succeeded and produced `a`, which the
  engine returns without further validation. -/
inductive ModelOutcome where
  | requestError (msg : String)
  | noChoices
  | contentMalformed (msg : String)
  | contentParsed (a : RiskAssessment)
deriving DecidableEq

/-- `analyze_risk(combined_data, loan_amount)` (`app.py` lines 232-363)
as a function of the model outcome. The two `except` clauses (lines
340 and 352) absorb `RequestException` and `JSONDecodeError` into the
two fallback dictionaries; the `ValueError` of line 338 matches
neither clause, so it escapes as `Except.error`. -/
def analyze_risk (combined_data : ApplicantProfile) (loan_amount : ℚ)
    (model : ModelOutcome) : Except String RiskAssessment :=
  let dti := dti_ratio combined_data loan_amount
  match model with
  | .requestError msg =>
    .ok
      { risk_score := 100
        risk_level := "HIGH"
        debt_to_income_ratio := dti
        recommendation := "REJECT"
        explanation :=
          "Risk analysis failed due to API error: " ++ msg ++
            ". Application rejected as safety measure."
        flags := [{ flag_type := "SYSTEM_ERROR"
                    message := "Risk analysis system unavailable"
                    severity := "high" }]
        suggested_actions := ["Retry analysis", "Contact IT support"]
        policy_compliance := [] }
  | .noChoices => .error "No response from Ministral-3B"
  | .contentMalformed msg =>
    .ok
      { risk_score := 100
        risk_level := "HIGH"
        debt_to_income_ratio := dti
        recommendation := "REJECT"
        explanation :=
          "Risk analysis response parsing failed: " ++ msg ++
            ". Application rejected as safety measure."
        flags := [{ flag_type := "SYSTEM_ERROR"
                    message := "Risk analysis parsing error"
                    severity := "high" }]
        suggested_actions := ["Retry analysis", "Contact IT support"]
        policy_compliance := [] }
  | .contentParsed a => .ok a

/-! ## Document extraction (`extract_document_data`, `app.py` lines 96-169) -/

/-- A schema-registry entry (`app.py` `SCHEMAS`, lines 44-93), carrying
the data the claims depend on: the title and the required field set. -/
structure DocSchema where
  title : String
  requiredFields : List String
deriving DecidableEq

/-- The schema registry (`app.py` lines 44-93): exactly the categories
`identity`, `income` and `bank_statement`. -/
def SCHEMAS : List (String × DocSchema) :=
  [("identity",
    { title := "IdentityDocument"
      requiredFields := ["full_name", "date_of_birth", "document_number"] }),
   ("income",
    { title := "IncomeDocument"
      requiredFields := ["applicant_name", "employer_name", "job_title",
                         "monthly_gross_income", "employment_start_date"] }),
   ("bank_statement",
    { title := "BankStatement"
      requiredFields := ["account_holder_name", "statement_period_start",
                         "statement_period_end"] })]

/-- One entry of a page's `images` list; `image_annot` models the
optional `"image_annotation"` key, already decoded from JSON into a
record of type `α` (the decode at `app.py` line 158). -/
structure PageImage (α : Type) where
  image_annot : Option α
deriving DecidableEq

/-- One entry of the extraction response's `pages` list
(`app.py` lines 151-162). -/
structure Page (α : Type) where
  images : List (PageImage α)
  markdown : Option String
deriving DecidableEq

/-- Observable outcome of the document-AI HTTP interaction in
`extract_document_data`: either `requests` raised (transport/HTTP
failure, covering `raise_for_status` and a non-JSON body), or a decoded
response body with its list of pages. -/
inductive ExtractionNet (α : Type) where
  | requestError (msg : String)
  | response (pages : List (Page α))
deriving DecidableEq

/-- Result value of a successful extraction: either the structured
record of the first annotated image, or the degraded
`{"raw_text": ..., "document_type": ...}` record of `app.py` line 162. -/
inductive ExtractResult (α : Type) where
  | structured (record : α)
  | rawText (raw_text : String) (document_type : String)
deriving DecidableEq

/-- First `image_annotation` among a page's images (`app.py`'s `for`
loop at lines 156-158, which returns on the first image carrying the
key). -/
def firstAnnot {α : Type} : List (PageImage α) → Option α
  | [] => none
  | img :: rest =>
    match img.image_annot with
    | some a => some a
    | none => firstAnnot rest

/-- `extract_document_data(pdf_file, document_type)` (`app.py` lines
96-169) as a function of the service outcome, paired with the number of
network requests issued. The schema lookup (lines 116-118) precedes the
`requests.post` call, so an unknown category issues no request; the
`except` clauses wrap transport errors as `"Document AI API error: ..."`
and everything else (including the two `ValueError`s) as
`"Extraction error: ..."`. -/
def extract_document_data {α : Type} (document_type : String)
    (net : ExtractionNet α) : Except String (ExtractResult α) × Nat :=
  match SCHEMAS.lookup document_type with
  | none => (.error ("Extraction error: Unknown document type: " ++ document_type), 0)
  | some _ =>
    match net with
    | .requestError msg => (.error ("Document AI API error: " ++ msg), 1)
    | .response pages =>
      match pages with
      | [] => (.error "Extraction error: No data extracted from document", 1)
      | page :: _ =>
        match firstAnnot page.images with
        | some record => (.ok (.structured record), 1)
        | none =>
          match page.markdown with
          | some md => (.ok (.rawText md document_type), 1)
          | none => (.error "Extraction error: No data extracted from document", 1)

/-! ## Persistence (`save_to_mongodb`, `app.py` lines 366-397) -/

/-- The application document built in `main` (`app.py` lines 668-672)
and handed to `save_to_mongodb`; `created_at` models the timestamp key
the save function adds (`none` before the call). -/
structure ApplicationData where
  applicant_data : ApplicantProfile
  risk_assessment : RiskAssessment
  loan_amount : ℚ
  created_at : Option Nat
deriving DecidableEq

/-- `save_to_mongodb(application_data)` (`app.py` lines 366-397), with
`datetime.utcnow()` passed as `now` and the `insert_one` outcome as
`insert_result`. The first component of the result is the caller's
dictionary after the call: the function mutates it in place at line 388
(`application_data["created_at"] = ...`) before inserting, so the stamp
is present whether or not the insert succeeds. Failures are re-raised
wrapped as `"MongoDB error: ..."` (line 397). -/
def save_to_mongodb (now : Nat) (application_data : ApplicationData)
    (insert_result : Except String String) : ApplicationData × Except String String :=
  let stamped := { application_data with created_at := some now }
  match insert_result with
  | .ok docId => (stamped, .ok docId)
  | .error e => (stamped, .error ("MongoDB error: " ++ e))

/-! ## Pipeline orchestration (`main`, `app.py` lines 528-722) -/

/-- The Streamlit session state relevant to results display
(`app.py` lines 551-558, 677-680, 699). -/
structure SessionState where
  processing_complete : Bool
  combined_data : Option ApplicantProfile
  risk_assessment : Option RiskAssessment
  application_id : Option String
deriving DecidableEq

/-- Pipeline stages, in the order the processing block of `main` enters
them (`app.py` lines 624-674). -/
inductive Step where
  | extractIdentity
  | extractIncome
  | extractBank
  | combine
  | score
  | persist
deriving DecidableEq

/-- Environment of one run of the processing block: the outcome of each
`extract_document_data` call (as seen by `main`), whether a bank file
was uploaded, the reasoning-model outcome, the loan amount, and the
persistence outcome. -/
structure Env where
  today : Date
  identity_result : Except String IdentityData
  income_result : Except String IncomeData
  has_bank : Bool
  bank_result : Except String BankData
  model_outcome : ModelOutcome
  loan_amount : ℚ
  db_now : Nat
  insert_result : Except String String

/-- The processing block of `main` (`app.py` lines 623-696): identity
extraction, income extraction, optional bank extraction (skipped when
no bank file is present, line 645), combine, score, save, then session
state update (lines 677-680). Any exception jumps to the `except`
handler at line 690, which only displays the error: the session state
is left unchanged. The result is the new session state, the list of
stages entered, and the surfaced error, if any. -/
def process (st : SessionState) (env : Env) : SessionState × List Step × Option String :=
  match env.identity_result with
  | .error e => (st, [Step.extractIdentity], some e)
  | .ok identity_data =>
    match env.income_result with
    | .error e => (st, [Step.extractIdentity, Step.extractIncome], some e)
    | .ok income_data =>
      let bankSteps := if env.has_bank then [Step.extractBank] else []
      match (if env.has_bank then Except.map some env.bank_result else .ok none) with
      | .error e => (st, [Step.extractIdentity, Step.extractIncome] ++ bankSteps, some e)
      | .ok bank_data =>
        let combined_data := combine_extracted_data env.today identity_data income_data bank_data
        let preTrace := [Step.extractIdentity, Step.extractIncome] ++ bankSteps ++ [Step.combine]
        match analyze_risk combined_data env.loan_amount env.model_outcome with
        | .error e => (st, preTrace ++ [Step.score], some e)
        | .ok risk_assessment =>
          let application_data : ApplicationData :=
            { applicant_data := combined_data
              risk_assessment := risk_assessment
              loan_amount := env.loan_amount
              created_at := none }
          match (save_to_mongodb env.db_now application_data env.insert_result).2 with
          | .error e => (st, preTrace ++ [Step.score, Step.persist], some e)
          | .ok application_id =>
            ({ processing_complete := true
               combined_data := some combined_data
               risk_assessment := some risk_assessment
               application_id := some application_id },
             preTrace ++ [Step.score, Step.persist], none)

/-- The gate on the results section and the report download button
(`app.py` line 699): they render only when `processing_complete` is set
and both stored results are present (a stored profile/assessment
dictionary is non-empty, hence truthy, exactly when present). -/
def downloadAvailable (st : SessionState) : Bool :=
  st.processing_complete && st.combined_data.isSome && st.risk_assessment.isSome

/-! ## Concrete records used to instantiate the theorems -/

/-- A concrete identity record. -/
def idRec0 : IdentityData :=
  { full_name := some "Jane Doe"
    date_of_birth := some "1990-01-01"
    document_number := some "X123456"
    address := some "1 Main Street" }

/-- A concrete income record. -/
def incRec0 : IncomeData :=
  { applicant_name := some "Jane Doe"
    employer_name := some "Acme GmbH"
    job_title := some "Engineer"
    monthly_gross_income := some 3000
    monthly_net_income := some 2100
    employment_start_date := some "2020-06-01"
    contract_type := some "permanent" }

/-- The income record with an employment start date in the future. -/
def incFuture : IncomeData :=
  { incRec0 with employment_start_date := some "2030-01-01" }

/-- A concrete applicant profile matching the worked example of the
specification: gross income 3000, recurring loan payments 200. -/
def sample_profile : ApplicantProfile :=
  { full_name := "Jane Doe"
    date_of_birth := "1990-01-01"
    document_number := "X123456"
    address := "1 Main Street"
    employer_name := "Acme GmbH"
    job_title := "Engineer"
    monthly_gross_income := 3000
    monthly_net_income := 2100
    employment_start_date := "2020-06-01"
    employment_months := 76
    contract_type := "permanent"
    average_balance := none
    total_expenses := none
    recurring_loan_payments := 200
    overdraft_occurrences := none }

/-- A concrete well-formed model assessment. -/
def ra0 : RiskAssessment :=
  { risk_score := 20
    risk_level := "LOW"
    debt_to_income_ratio := 1 / 6
    recommendation := "APPROVE"
    explanation := "Low risk profile."
    flags := []
    suggested_actions := []
    policy_compliance := [] }

/-- A fresh session: nothing processed yet (`app.py` lines 551-558). -/
def st0 : SessionState :=
  { processing_complete := false
    combined_data := none
    risk_assessment := none
    application_id := none }

/-- A run in which every stage up to persistence succeeds and the
database insert fails. -/
def env_persist_fail : Env :=
  { today := { year := 2026, month := 10 }
    identity_result := .ok idRec0
    income_result := .ok incRec0
    has_bank := false
    bank_result := .ok { average_balance := none, total_expenses := none,
                         recurring_loan_payments := none, overdraft_occurrences := none }
    model_outcome := .contentParsed ra0
    loan_amount := 15000
    db_now := 0
    insert_result := .error "connection refused" }

/-! ## C1 — error absorption in the scoring stage -/

/-- C1, counterexample: `analyze_risk` does not absorb every
output-integrity failure of the reasoning model. When the model's HTTP
response carries no non-empty `choices` list, line 338 of `app.py`
raises `ValueError("No response from Ministral-3B")`, which matches
neither `except` clause (they catch only `RequestException` and
`json.JSONDecodeError`) and therefore propagates to the caller, moving
the pipeline to its failure path. -/
theorem analyze_risk_no_choices_propagates :
    analyze_risk sample_profile 15000 ModelOutcome.noChoices
      = Except.error "No response from Ministral-3B" := rfl

/-- C1 (amended): for every applicant profile and loan amount,
`analyze_risk` absorbs a transport failure and a JSON-parse failure of
the model's message content into a fallback `RiskAssessment`, and
returns a successfully parsed assessment unchanged; but a response
with no choices raises `ValueError("No response from Ministral-3B")`,
which propagates to the caller. -/
theorem analyze_risk_absorbs_transport_and_parse_failures
    (c : ApplicantProfile) (l : ℚ) (msg : String) (a : RiskAssessment) :
    (analyze_risk c l (ModelOutcome.requestError msg)).isOk = true ∧
    (analyze_risk c l (ModelOutcome.contentMalformed msg)).isOk = true ∧
    analyze_risk c l (ModelOutcome.contentParsed a) = Except.ok a ∧
    analyze_risk c l ModelOutcome.noChoices
      = Except.error "No response from Ministral-3B" :=
  ⟨rfl, rfl, rfl, rfl⟩

/-! ## C2 — deterministic phase of the risk engine -/

/-- C2: the deterministic phase of `analyze_risk` computes
`estimated_monthly_payment = loan_amount * 0.02`,
`total_debt = recurring_loan_payments + estimated_monthly_payment`, and
`dti_ratio = total_debt / monthly_gross_income` when the gross income is
positive and `1.0` otherwise; on the worked example (gross income 3000,
recurring loan payments 200, loan amount 15000) this yields an estimated
monthly payment of 300, a total debt of 500, and a DTI ratio of
500/3000. -/
theorem analyze_risk_deterministic_metrics (c : ApplicantProfile) (l : ℚ) :
    estimated_monthly_payment l = l * (2 / 100) ∧
    total_debt c l = c.recurring_loan_payments + estimated_monthly_payment l ∧
    dti_ratio c l =
      (if 0 < c.monthly_gross_income then
        total_debt c l / c.monthly_gross_income
      else 1) ∧
    estimated_monthly_payment 15000 = 300 ∧
    total_debt sample_profile 15000 = 500 ∧
    dti_ratio sample_profile 15000 = 500 / 3000 := by
  refine ⟨rfl, rfl, rfl, ?_, ?_, ?_⟩
  · norm_num [estimated_monthly_payment]
  · norm_num [total_debt, estimated_monthly_payment, sample_profile]
  · norm_num [dti_ratio, total_debt, estimated_monthly_payment, sample_profile]

/-! ## C3 — the fallback assessment -/

/-- C3: on a transport failure of the reasoning-model call, and on a
JSON-parse failure of its output, `analyze_risk` returns the synthetic
fallback assessment: `risk_score = 100`, `risk_level = "HIGH"`,
`recommendation = "REJECT"`, `debt_to_income_ratio` equal to the
phase-1 `dti_ratio`, an explanation naming the failure cause (and
referencing a parsing failure in the parse case), exactly one
`SYSTEM_ERROR` flag of high severity, and
`suggested_actions = ["Retry analysis", "Contact IT support"]`. -/
theorem analyze_risk_fallback_assessment
    (c : ApplicantProfile) (l : ℚ) (msg : String) :
    analyze_risk c l (ModelOutcome.requestError msg) = Except.ok
      { risk_score := 100
        risk_level := "HIGH"
        debt_to_income_ratio := dti_ratio c l
        recommendation := "REJECT"
        explanation :=
          "Risk analysis failed due to API error: " ++ msg ++
            ". Application rejected as safety measure."
        flags := [{ flag_type := "SYSTEM_ERROR"
                    message := "Risk analysis system unavailable"
                    severity := "high" }]
        suggested_actions := ["Retry analysis", "Contact IT support"]
        policy_compliance := [] } ∧
    analyze_risk c l (ModelOutcome.contentMalformed msg) = Except.ok
      { risk_score := 100
        risk_level := "HIGH"
        debt_to_income_ratio := dti_ratio c l
        recommendation := "REJECT"
        explanation :=
          "Risk analysis response parsing failed: " ++ msg ++
            ". Application rejected as safety measure."
        flags := [{ flag_type := "SYSTEM_ERROR"
                    message := "Risk analysis parsing error"
                    severity := "high" }]
        suggested_actions := ["Retry analysis", "Contact IT support"]
        policy_compliance := [] } :=
  ⟨rfl, rfl⟩

/-! ## C8 — bank fields of the combined profile -/

/-- C8: with no bank record, `combine_extracted_data` sets
`average_balance`, `total_expenses` and `overdraft_occurrences` to
`null` and `recurring_loan_payments` to `0`; with a bank record, each
of the four fields is copied verbatim when present (in particular an
average balance of 12000 propagates unchanged) and defaults to `0`
when missing. -/
theorem combine_bank_fields (today : Date) (idr : IdentityData)
    (inc : IncomeData) (bank : BankData) :
    ((combine_extracted_data today idr inc none).average_balance = none ∧
     (combine_extracted_data today idr inc none).total_expenses = none ∧
     (combine_extracted_data today idr inc none).overdraft_occurrences = none ∧
     (combine_extracted_data today idr inc none).recurring_loan_payments = 0) ∧
    (∀ q : ℚ, (combine_extracted_data today idr inc
        (some { bank with average_balance := some q })).average_balance = some q) ∧
    (∀ q : ℚ, (combine_extracted_data today idr inc
        (some { bank with total_expenses := some q })).total_expenses = some q) ∧
    (∀ q : ℚ, (combine_extracted_data today idr inc
        (some { bank with recurring_loan_payments := some q })).recurring_loan_payments = q) ∧
    (∀ n : Int, (combine_extracted_data today idr inc
        (some { bank with overdraft_occurrences := some n })).overdraft_occurrences = some n) ∧
    ((combine_extracted_data today idr inc
        (some { bank with average_balance := none })).average_balance = some 0) ∧
    ((combine_extracted_data today idr inc
        (some { bank with total_expenses := none })).total_expenses = some 0) ∧
    ((combine_extracted_data today idr inc
        (some { bank with recurring_loan_payments := none })).recurring_loan_payments = 0) ∧
    ((combine_extracted_data today idr inc
        (some { bank with overdraft_occurrences := none })).overdraft_occurrences = some 0) ∧
    ((combine_extracted_data today idr inc
        (some { bank with average_balance := some 12000 })).average_balance = some 12000) :=
  ⟨⟨rfl, rfl, rfl, rfl⟩, fun _ => rfl, fun _ => rfl, fun _ => rfl, fun _ => rfl,
   rfl, rfl, rfl, rfl, rfl⟩

/-! ## C9 — name resolution -/

/-- C9: `combine_extracted_data` prefers the identity record's name,
falls back to the income record's applicant name when the identity
record has no name, and falls back to the literal `"Unknown"` when
neither record has a name. -/
theorem combine_full_name_resolution (today : Date) (idr : IdentityData)
    (inc : IncomeData) (bank : Option BankData) (n n2 : String) :
    (combine_extracted_data today { idr with full_name := some n } inc bank).full_name = n ∧
    (combine_extracted_data today { idr with full_name := none }
        { inc with applicant_name := some n2 } bank).full_name = n2 ∧
    (combine_extracted_data today { idr with full_name := none }
        { inc with applicant_name := none } bank).full_name = "Unknown" := by
  refine ⟨?_, ?_, ?_⟩ <;> cases bank <;> rfl

/-! ## C10 — persistence stamps `created_at` in place -/

/-- C10: `save_to_mongodb` adds a `created_at` key holding the current
UTC timestamp to the caller's dictionary before inserting, and leaves
every other key and value of that dictionary unchanged, whatever the
insert outcome. -/
theorem save_to_mongodb_stamps_created_at (now : Nat) (d : ApplicationData)
    (insert_result : Except String String) :
    (save_to_mongodb now d insert_result).1.created_at = some now ∧
    (save_to_mongodb now d insert_result).1.applicant_data = d.applicant_data ∧
    (save_to_mongodb now d insert_result).1.risk_assessment = d.risk_assessment ∧
    (save_to_mongodb now d insert_result).1.loan_amount = d.loan_amount := by
  cases insert_result <;> exact ⟨rfl, rfl, rfl, rfl⟩

/-! ## C4 — employment duration -/

/-- A successful parse satisfies the bounds `strptime` enforces:
the year, month and day are at least 1 and the month is at most 12. -/
theorem parseDate_some_bounds {s : String} {y m d : Nat}
    (h : parseDate s = some (y, m, d)) :
    1 ≤ y ∧ 1 ≤ m ∧ m ≤ 12 ∧ 1 ≤ d := by
  unfold parseDate at h
  split at h
  · split at h
    · next hc =>
      simp only [Option.some.injEq, Prod.mk.injEq] at h
      obtain ⟨rfl, rfl, rfl⟩ := h
      obtain ⟨-, -, -, -, -, -, -, -, hy, hm1, hm2, hd, -⟩ := hc
      exact ⟨hy, hm1, hm2, hd⟩
    · simp at h
  · simp at h

/-- C4, counterexample: `employment_months` is not always non-negative.
For an employment start date in a future month — here `"2030-01-01"`
with the current date at October 2026 — the formula of `app.py`
line 194 yields `(2026 - 2030) * 12 + (10 - 1) = -39`, a negative
duration, which `combine_extracted_data` stores unchanged in the
profile. -/
theorem combine_employment_months_negative :
    (combine_extracted_data { year := 2026, month := 10 } idRec0 incFuture
        none).employment_months = -39 ∧
    ¬ (0 ≤ (combine_extracted_data { year := 2026, month := 10 } idRec0 incFuture
        none).employment_months) := by
  constructor
  · decide
  · decide

/-- C4 (amended): for every identity record, income record, and
optional bank record, the profile returned by `combine_extracted_data`
always carries an `employment_months` value, computed by
`employment_months` from the income record's start-date string; every
start date that is missing, malformed, or otherwise fails to parse as
a `YYYY-MM-DD` date yields `employment_months = 0` with no exception;
on a successful parse the value is
`(today.year - start.year) * 12 + (today.month - start.month)`, which
is non-negative whenever the start date's year and month do not lie
after the current ones — but negative for a start date in a future
month. -/
theorem combine_employment_months_total (today : Date)
    (identity_data : IdentityData) (income_data : IncomeData)
    (bank_data : Option BankData) :
    (combine_extracted_data today identity_data income_data bank_data).employment_months
        = employment_months today (income_data.employment_start_date.getD "") ∧
    (∀ s, employment_months today s =
        match parseDate s with
        | some (y, m, _) =>
          ((today.year : Int) - (y : Int)) * 12 + ((today.month : Int) - (m : Int))
        | none => 0) ∧
    (∀ s y m d, parseDate s = some (y, m, d) → 1 ≤ today.month →
        (y < today.year ∨ (y = today.year ∧ m ≤ today.month)) →
        0 ≤ employment_months today s) := by
  have h2 : ∀ s, employment_months today s =
      match parseDate s with
      | some (y, m, _) =>
        ((today.year : Int) - (y : Int)) * 12 + ((today.month : Int) - (m : Int))
      | none => 0 := by
    intro s
    by_cases hs : s = ""
    · subst hs
      have hp : parseDate "" = none := rfl
      simp [employment_months, hp]
    · unfold employment_months
      rw [if_neg hs]
  refine ⟨?_, h2, ?_⟩
  · cases bank_data <;> rfl
  · intro s y m d hps hm hord
    have hval : employment_months today s
        = ((today.year : Int) - (y : Int)) * 12 + ((today.month : Int) - (m : Int)) := by
      rw [h2 s, hps]
    obtain ⟨hy1, hm1, hm12, hd1⟩ := parseDate_some_bounds hps
    rw [hval]
    rcases hord with h | ⟨h, h2m⟩ <;> omega

/-- C4 witness: the amended theorem applied at October 2026 with start
date `"2020-06-01"` — a parse success in the past — yields a
non-negative duration. -/
theorem combine_employment_months_total_witness :
    (0 : Int) ≤ employment_months { year := 2026, month := 10 } "2020-06-01" :=
  (combine_employment_months_total { year := 2026, month := 10 } idRec0 incRec0
      none).2.2 "2020-06-01" 2020 6 1 (by decide) (by decide) (by decide)

/-! ## C5 — persistence failure -/

/-- C5, counterexample: when the database insert fails after scoring
has completed, the error surfaces — but the computed profile and
assessment are lost. `main` stores results into the session state only
after `save_to_mongodb` returns (`app.py` lines 673-680), so the
exception skips the store, the session state is unchanged, and the
report download (gated on `processing_complete` and the stored
results, line 699) is not offered. -/
theorem process_persist_fail_loses_results :
    (process st0 env_persist_fail).2.2 = some "MongoDB error: connection refused" ∧
    (process st0 env_persist_fail).1 = st0 ∧
    downloadAvailable (process st0 env_persist_fail).1 = false :=
  ⟨rfl, rfl, rfl⟩

/-- C5 (amended): if the persistence write fails after scoring has
completed, the persistence error surfaces to the caller, but the
computed applicant profile and risk assessment are discarded: the
session state is updated only after a successful write, so for a run
whose session had not previously completed, the report download is not
available. -/
theorem process_persist_fail_surfaces_and_discards (st : SessionState)
    (today : Date) (idd : IdentityData) (incd : IncomeData)
    (br : Except String BankData) (ra : RiskAssessment) (l : ℚ) (now : Nat)
    (msg : String) (c : Option ApplicantProfile) (r : Option RiskAssessment)
    (aid : Option String) :
    process st { today := today, identity_result := .ok idd,
                 income_result := .ok incd, has_bank := false, bank_result := br,
                 model_outcome := .contentParsed ra, loan_amount := l,
                 db_now := now, insert_result := .error msg }
      = (st, [Step.extractIdentity, Step.extractIncome, Step.combine,
              Step.score, Step.persist],
         some ("MongoDB error: " ++ msg)) ∧
    downloadAvailable { processing_complete := false, combined_data := c,
                        risk_assessment := r, application_id := aid } = false :=
  ⟨rfl, rfl⟩

/-! ## C6 — strict linear pipeline, fail-fast extraction -/

/-- C6: the pipeline executes as a strict linear sequence — identity
extraction, then income extraction, then optional bank extraction
(skipped entirely when no bank document is supplied), then combine,
then score, then persist — and whenever an extraction step fails, the
run aborts immediately: the session state is unchanged and neither
combine, nor score, nor persist is entered. -/
theorem process_linear_and_fail_fast (st : SessionState) (today : Date)
    (e1 e2 e3 : String) (idd : IdentityData) (incd : IncomeData)
    (ir : Except String IncomeData) (br : Except String BankData)
    (bd : BankData) (hb : Bool) (mo : ModelOutcome) (ra : RiskAssessment)
    (l : ℚ) (now : Nat) (ins : Except String String) (appId : String) :
    process st { today := today, identity_result := .error e1, income_result := ir,
                 has_bank := hb, bank_result := br, model_outcome := mo,
                 loan_amount := l, db_now := now, insert_result := ins }
      = (st, [Step.extractIdentity], some e1) ∧
    process st { today := today, identity_result := .ok idd,
                 income_result := .error e2, has_bank := hb, bank_result := br,
                 model_outcome := mo, loan_amount := l, db_now := now,
                 insert_result := ins }
      = (st, [Step.extractIdentity, Step.extractIncome], some e2) ∧
    process st { today := today, identity_result := .ok idd,
                 income_result := .ok incd, has_bank := true,
                 bank_result := .error e3, model_outcome := mo, loan_amount := l,
                 db_now := now, insert_result := ins }
      = (st, [Step.extractIdentity, Step.extractIncome, Step.extractBank],
         some e3) ∧
    process st { today := today, identity_result := .ok idd,
                 income_result := .ok incd, has_bank := false, bank_result := br,
                 model_outcome := .contentParsed ra, loan_amount := l,
                 db_now := now, insert_result := .ok appId }
      = ({ processing_complete := true
           combined_data := some (combine_extracted_data today idd incd none)
           risk_assessment := some ra
           application_id := some appId },
         [Step.extractIdentity, Step.extractIncome, Step.combine, Step.score,
          Step.persist], none) ∧
    process st { today := today, identity_result := .ok idd,
                 income_result := .ok incd, has_bank := true,
                 bank_result := .ok bd, model_outcome := .contentParsed ra,
                 loan_amount := l, db_now := now, insert_result := .ok appId }
      = ({ processing_complete := true
           combined_data := some (combine_extracted_data today idd incd (some bd))
           risk_assessment := some ra
           application_id := some appId },
         [Step.extractIdentity, Step.extractIncome, Step.extractBank,
          Step.combine, Step.score, Step.persist], none) :=
  ⟨rfl, rfl, rfl, rfl, rfl⟩

/-! ## C7 — unknown document category -/

/-- C7: for every document payload and every category that is not a key
of the schema registry, `extract_document_data` fails with the
unknown-document-type error — wrapped by the generic `except` clause as
`"Extraction error: Unknown document type: ..."` — and issues no network
request to the extraction service. -/
theorem extract_unknown_type_no_network {α : Type} (document_type : String)
    (net : ExtractionNet α)
    (h : SCHEMAS.lookup document_type = none) :
    extract_document_data document_type net
      = (.error ("Extraction error: Unknown document type: " ++ document_type), 0) := by
  unfold extract_document_data
  rw [h]

/-- C7 witness: `"unknown_category"` is not a key of the registry, and
extracting with it fails without touching the transport (zero
requests), whatever response the service would have given. -/
theorem extract_unknown_type_no_network_witness :
    SCHEMAS.lookup "unknown_category" = none ∧
    extract_document_data "unknown_category"
        (ExtractionNet.response ([] : List (Page Unit)))
      = (.error ("Extraction error: Unknown document type: " ++ "unknown_category"), 0) :=
  ⟨by decide,
   extract_unknown_type_no_network "unknown_category"
     (ExtractionNet.response ([] : List (Page Unit))) (by decide)⟩

end LoanProcessor
